import Mathlib

/-!
# Verification of the agentic loop of agent_travaux.py

This file gives a shallow embedding of the core of src/agent_travaux.py:
the three domain tool handlers (calculer_volume, estimer_cout_reseau,
memo_chantier), the tool dispatcher (executer_outil) and the agentic loop
(run_agent), together with theorems settling the specification claims.

Modelling conventions:
* Python floats are modelled as exact rationals (and reals where the source
  uses math.sqrt); this is the usual exact-arithmetic idealisation.
* Python round (round half to even) is modelled by pyRound below.
* JSON values exchanged with the tools are modelled by the inductive JVal;
  json.dumps serialisation is modelled as the structured value itself (the
  claims only inspect the structured contents, never the raw string).
* The completion service is modelled as an oracle: it receives the current
  transcript and the index of the request and returns a Response.  The
  system prompt and the static tool catalog, sent verbatim with every
  request, carry no information the claims depend on.
* The module-level journal dict is modelled by explicit state passing.
-/

namespace AgentTP

/-- JSON-like values: the data exchanged between the model and the tools. -/
inductive JVal where
  | num (q : ℚ)
  | str (s : String)
  | obj (fields : List (String × JVal))

/-- Untyped input mapping of a tool invocation (a JSON object, unique keys). -/
abbrev Input := List (String × JVal)

/-- The session journal `_journal_chantier : dict[str, str]`. -/
abbrev Journal := List (String × String)

/-- First-match association lookup; Python dicts have unique keys, so this
is exactly dict lookup. -/
def alookup {α : Type} (k : String) : List (String × α) → Option α
  | [] => none
  | (k2, v) :: rest => if k2 = k then some v else alookup k rest

/-- Field access on a JSON object list. -/
def getField (k : String) : List (String × JVal) → Option JVal
  | [] => none
  | (k2, v) :: rest => if k2 = k then some v else getField k rest

/-- Field access on a JSON value (none on non-objects). -/
def JVal.get (v : JVal) (k : String) : Option JVal :=
  match v with
  | JVal.obj fields => getField k fields
  | _ => none

/-- Python 3 round(): round half to even (banker's rounding). -/
def pyRound {α : Type} [LinearOrderedField α] [FloorRing α] (x : α) : ℤ :=
  if Int.fract x = 1/2 then (if ⌊x⌋ % 2 = 0 then ⌊x⌋ else ⌊x⌋ + 1) else round x

/-- Python round(x, 2): round to two decimal places. -/
def round2 (q : ℚ) : ℚ := (pyRound (q * 100) : ℚ) / 100

/-- Densities by material, t/m3 (`_DENSITES` in the source). -/
def _DENSITES : List (String × ℚ) :=
  [("terre", 18/10), ("beton", 24/10), ("eau", 1), ("gravier", 16/10)]

/-- Unit network costs in euros/ml, [min, max] (`_COUTS_RESEAU`). -/
def _COUTS_RESEAU : List (String × ℚ × ℚ) :=
  [("eau_potable", (150, 350)), ("assainissement", (200, 500)),
   ("pluvial", (180, 420)), ("telecom", (80, 180))]

/-- `_DENSITES.get(materiau, 1.8)`: a non-string tag never matches a key of
the table, so it falls back to the default density, as in the source. -/
def densiteGet (materiau : JVal) : ℚ :=
  match materiau with
  | JVal.str s => (alookup s _DENSITES).getD (18/10)
  | _ => 18/10

/-- The volume-and-mass calculator `calculer_volume`.  The dimensions field
is a display string; rational printing stands in for float printing. -/
def calculer_volume (longueur_m largeur_m profondeur_m : ℚ)
    (materiau : JVal) : JVal :=
  let volume_m3 := longueur_m * largeur_m * profondeur_m
  let densite := densiteGet materiau
  let masse_t := volume_m3 * densite
  JVal.obj [("volume_m3", JVal.num (round2 volume_m3)),
            ("masse_t", JVal.num (round2 masse_t)),
            ("materiau", materiau),
            ("dimensions", JVal.str (toString longueur_m ++ "m × " ++
              toString largeur_m ++ "m × " ++ toString profondeur_m ++ "m"))]

/-- `_COUTS_RESEAU.get(type_reseau, [200, 500])`. -/
def fourchette (type_reseau : JVal) : ℚ × ℚ :=
  match type_reseau with
  | JVal.str s => (alookup s _COUTS_RESEAU).getD (200, 500)
  | _ => (200, 500)

/-- `math.sqrt(diametre_mm / 200)` (the diameter scale coefficient). -/
noncomputable def coeff_diam (diametre_mm : ℚ) : ℝ :=
  Real.sqrt ((diametre_mm : ℝ) / 200)

/-- `cout_min = round(fourchette[0] * longueur_m * coeff_diam)`. -/
noncomputable def cout_min (type_reseau : JVal) (longueur_m diametre_mm : ℚ) : ℤ :=
  pyRound (((fourchette type_reseau).1 : ℝ) * (longueur_m : ℝ) *
    coeff_diam diametre_mm)

/-- `cout_max = round(fourchette[1] * longueur_m * coeff_diam)`. -/
noncomputable def cout_max (type_reseau : JVal) (longueur_m diametre_mm : ℚ) : ℤ :=
  pyRound (((fourchette type_reseau).2 : ℝ) * (longueur_m : ℝ) *
    coeff_diam diametre_mm)

/-- The network-cost estimator `estimer_cout_reseau`.  The source formats
the two cost bounds as strings with thousands separators; the numeric
values are modelled directly. -/
noncomputable def estimer_cout_reseau (type_reseau : JVal)
    (longueur_m : ℚ) (diametre_mm : ℚ) : JVal :=
  JVal.obj [("type_reseau", type_reseau),
            ("longueur_m", JVal.num longueur_m),
            ("diametre_mm", JVal.num diametre_mm),
            ("cout_min_ht", JVal.num (cout_min type_reseau longueur_m diametre_mm)),
            ("cout_max_ht", JVal.num (cout_max type_reseau longueur_m diametre_mm)),
            ("note", JVal.str ("Fourniture et pose, hors VRD et déviations"))]

/-- `_journal_chantier[cle] = valeur`: overwrite in place if the key exists
(keeping its position, as Python dicts do), else append. -/
def journalInsert (k v : String) : Journal → Journal
  | [] => [(k, v)]
  | (k2, v2) :: rest =>
      if k2 = k then (k, v) :: rest else (k2, v2) :: journalInsert k v rest

/-- Number of entries of the journal carrying a given key. -/
def countKey (k : String) : Journal → ℕ
  | [] => 0
  | (k2, _) :: rest => (if k2 = k then 1 else 0) + countKey k rest

/-- The journal rendered as the JSON object returned in the memo payload. -/
def journalToJVal (j : Journal) : JVal :=
  JVal.obj (j.map (fun e => (e.1, JVal.str e.2)))

/-- The journal writer `memo_chantier`: returns the payload and the updated
journal (the source mutates the module-level dict). -/
def memo_chantier (cle valeur : String) (j : Journal) : JVal × Journal :=
  let j2 := journalInsert cle valeur j
  (JVal.obj [("status", JVal.str ("mémorisé")),
             ("cle", JVal.str cle),
             ("journal", journalToJVal j2)], j2)

/-- The tool registry `_TOOL_REGISTRY` (its key set; the handlers are
dispatched in callTool below). -/
def _TOOL_REGISTRY : List String :=
  ["calculer_volume", "estimer_cout_reseau", "memo_chantier"]

/-- Keys of an input mapping. -/
def inputKeys (input : Input) : List String := input.map Prod.fst

/-- Python keyword binding accepts exactly the declared parameter names:
an unexpected keyword raises TypeError. -/
def keysOK (ks allowed : List String) : Bool :=
  ks.all (fun k => allowed.contains k)

/-- Error message for a failed binding of calculer_volume (the exact
Python TypeError text is not modelled, only that a message is produced). -/
def msg_calc : String := "calculer_volume: argument manquant ou invalide"

/-- Error message for a failed binding of estimer_cout_reseau. -/
def msg_reseau : String := "estimer_cout_reseau: argument manquant ou invalide"

/-- Python ValueError raised by math.sqrt on a negative argument. -/
def msg_sqrt : String := "math domain error"

/-- Error message for a failed binding of memo_chantier. -/
def msg_memo : String := "memo_chantier: argument manquant ou invalide"

/-- `calculer_volume(**tool_input)`: requires the three numeric dimensions
(a missing or non-numeric one raises TypeError in the source, before any
result is produced); materiau is optional and defaults to "terre". -/
def bindCalc (input : Input) : Except String JVal :=
  if keysOK (inputKeys input)
      ["longueur_m", "largeur_m", "profondeur_m", "materiau"] then
    match alookup "longueur_m" input, alookup "largeur_m" input,
        alookup "profondeur_m" input with
    | some (JVal.num l), some (JVal.num w), some (JVal.num p) =>
        Except.ok (calculer_volume l w p
          ((alookup "materiau" input).getD (JVal.str ("terre"))))
    | _, _, _ => Except.error msg_calc
  else Except.error msg_calc

/-- `estimer_cout_reseau(**tool_input)`: type_reseau and a numeric
longueur_m are required, diametre_mm defaults to 200; a negative diameter
raises ValueError inside math.sqrt. -/
noncomputable def bindEstimer (input : Input) : Except String JVal :=
  if keysOK (inputKeys input) ["type_reseau", "longueur_m", "diametre_mm"] then
    match alookup "type_reseau" input, alookup "longueur_m" input with
    | some t, some (JVal.num l) =>
        match (alookup "diametre_mm" input).getD (JVal.num 200) with
        | JVal.num d =>
            if d < 0 then Except.error msg_sqrt
            else Except.ok (estimer_cout_reseau t l d)
        | _ => Except.error msg_reseau
    | _, _ => Except.error msg_reseau
  else Except.error msg_reseau

/-- `memo_chantier(**tool_input)`: cle and valeur are required; the journal
is declared dict[str, str], so entries are modelled as strings. -/
def bindMemo (input : Input) (j : Journal) : Except String (JVal × Journal) :=
  if keysOK (inputKeys input) ["cle", "valeur"] then
    match alookup "cle" input, alookup "valeur" input with
    | some (JVal.str c), some (JVal.str v) => Except.ok (memo_chantier c v j)
    | _, _ => Except.error msg_memo
  else Except.error msg_memo

/-- `fn = _TOOL_REGISTRY[tool_name]; fn(**tool_input)`: dispatch to the
registered handler.  A binding or handler failure leaves the journal
unchanged (memo_chantier can only fail before it writes). -/
noncomputable def callTool (tool_name : String) (tool_input : Input)
    (j : Journal) : Except String (JVal × Journal) :=
  if tool_name = "calculer_volume" then (bindCalc tool_input).map (fun p => (p, j))
  else if tool_name = "estimer_cout_reseau" then
    (bindEstimer tool_input).map (fun p => (p, j))
  else if tool_name = "memo_chantier" then bindMemo tool_input j
  else Except.error ("Outil inconnu : " ++ tool_name)

/-- The dispatcher `executer_outil`: unknown tool names yield an error
payload, and any failure of the resolved handler is caught and converted
into an error payload carrying the message, the tool name and the original
input.  It is a total function: nothing escapes this boundary. -/
noncomputable def executer_outil (tool_name : String) (tool_input : Input)
    (j : Journal) : JVal × Journal :=
  if tool_name ∈ _TOOL_REGISTRY then
    match callTool tool_name tool_input j with
    | Except.ok r => r
    | Except.error msg =>
        (JVal.obj [("erreur", JVal.str msg), ("outil", JVal.str tool_name),
                   ("input", JVal.obj tool_input)], j)
  else
    (JVal.obj [("erreur", JVal.str ("Outil inconnu : " ++ tool_name))], j)

/-- A content block of an assistant response: text or a tool invocation
carrying a correlation id, a tool name and an input mapping. -/
inductive Block where
  | text (t : String)
  | toolUse (id : String) (name : String) (input : Input)

/-- Termination signal of a response (`stop_reason`). -/
inductive StopReason where
  | end_turn
  | tool_use
  | other (reason : String)

/-- A response of the completion service. -/
structure Response where
  stop_reason : StopReason
  content : List Block

/-- A turn of the transcript.  Tool results are sent back with role user
in the source; the spec calls this a tool-result-batch turn. -/
inductive Message where
  | user (text : String)
  | assistant (content : List Block)
  | toolResults (results : List ToolResult)

/-- A tool result: the correlation id of its invocation and the payload. -/
structure ToolResult where
  tool_use_id : String
  content : JVal

/-- The completion service, as an oracle: it receives the transcript sent
with the request and the index of the request (0-based count of requests
already sent) and returns the response. -/
abbrev Svc := List Message → ℕ → Response

/-- Correlation ids of the tool invocations of a content list, in order. -/
def toolUseIds : List Block → List String
  | [] => []
  | Block.text _ :: rest => toolUseIds rest
  | Block.toolUse i _ _ :: rest => i :: toolUseIds rest

/-- Sequential execution of the tool invocations of a response content, in
the exact order listed, threading the journal left to right; one ToolResult
per invocation, carrying its correlation id. -/
noncomputable def processBlocks (j : Journal) : List Block → List ToolResult × Journal
  | [] => ([], j)
  | Block.text _ :: rest => processBlocks j rest
  | Block.toolUse i name input :: rest =>
      let r := executer_outil name input j
      let rs := processBlocks r.2 rest
      (⟨i, r.1⟩ :: rs.1, rs.2)

/-- Extraction of the final deliverable: the first text block. -/
def firstText : List Block → String
  | [] => ""
  | Block.text t :: _ => t
  | Block.toolUse _ _ _ :: rest => firstText rest

/-- The loop bookkeeping: iteration counter, transcript, journal, final
deliverable text, and the number of requests sent so far. -/
structure LoopState where
  iteration : ℕ
  messages : List Message
  journal : Journal
  reponse_finale : String
  requests : ℕ

/-- Outcome of one pass of the loop body: either the loop goes on
(tool_use) or it breaks (end_turn or an unexpected signal). -/
inductive StepOut where
  | next (s : LoopState)
  | halt (s : LoopState)

/-- One pass of the loop body: increment the counter, send the request,
classify the termination signal. -/
noncomputable def loopStep (svc : Svc) (s : LoopState) : StepOut :=
  let resp := svc s.messages s.requests
  match resp.stop_reason with
  | StopReason.end_turn =>
      StepOut.halt ⟨s.iteration + 1, s.messages, s.journal,
        firstText resp.content, s.requests + 1⟩
  | StopReason.tool_use =>
      let pr := processBlocks s.journal resp.content
      StepOut.next ⟨s.iteration + 1,
        s.messages ++ [Message.assistant resp.content, Message.toolResults pr.1],
        pr.2, s.reponse_finale, s.requests + 1⟩
  | StopReason.other _ =>
      StepOut.halt ⟨s.iteration + 1, s.messages, s.journal,
        s.reponse_finale, s.requests + 1⟩

/-- The while loop.  The guard mirrors `while iteration < max_iterations`;
the fuel is the number of passes still permitted by the budget and is kept
equal to (max_iterations - iteration).toNat, so it never cuts a run short
(budget_exhaustion and the other loop theorems below pin the exact
behavior). -/
noncomputable def loopAux (svc : Svc) (max_iterations : ℤ) :
    ℕ → LoopState → LoopState
  | 0, s => s
  | fuel + 1, s =>
      if (s.iteration : ℤ) < max_iterations then
        match loopStep svc s with
        | StepOut.halt s2 => s2
        | StepOut.next s2 => loopAux svc max_iterations fuel s2
      else s

/-- The sentinel deliverable of a forced stop. -/
def sentinel_arret : String := "Agent arrêté : limite d\x27itérations atteinte."

/-- `run_agent`, state level: seed the transcript with the mission, run the
while loop, then apply the safety net
`if iteration >= max_iterations and not reponse_finale`. -/
noncomputable def run_agent_state (svc : Svc) (task : String)
    (max_iterations : ℤ) (j0 : Journal) : LoopState :=
  let s0 : LoopState := ⟨0, [Message.user task], j0, "", 0⟩
  let s1 := loopAux svc max_iterations max_iterations.toNat s0
  if max_iterations ≤ (s1.iteration : ℤ) ∧ s1.reponse_finale = "" then
    ⟨s1.iteration, s1.messages, s1.journal, sentinel_arret, s1.requests⟩
  else s1

/-- `run_agent` returns the final deliverable text. -/
noncomputable def run_agent (svc : Svc) (task : String)
    (max_iterations : ℤ) (j0 : Journal) : String :=
  (run_agent_state svc task max_iterations j0).reponse_finale

/-! ## Evaluation helpers for the rounding functions -/

theorem pyRound_intCast {α : Type} [LinearOrderedField α] [FloorRing α]
    (n : ℤ) : pyRound ((n : α)) = n := by
  unfold pyRound
  rw [if_neg]
  · exact round_intCast n
  · rw [Int.fract_intCast]
    norm_num

theorem pyRound_eq_round {α : Type} [LinearOrderedField α] [FloorRing α]
    (x : α) (h : Int.fract x ≠ 1/2) : pyRound x = round x := if_neg h

theorem round2_int (q : ℚ) (n : ℤ) (h : q * 100 = (n : ℚ)) :
    round2 q = (n : ℚ) / 100 := by
  unfold round2
  rw [h, pyRound_intCast]

theorem round2_80 : round2 80 = 80 := by
  rw [round2_int 80 8000 (by norm_num)]
  norm_num

theorem round2_192 : round2 192 = 192 := by
  rw [round2_int 192 19200 (by norm_num)]
  norm_num

theorem round2_144 : round2 144 = 144 := by
  rw [round2_int 144 14400 (by norm_num)]
  norm_num

theorem round2_milli : round2 (1/1000) = 0 := by
  unfold round2
  rw [show (1/1000 : ℚ) * 100 = 1/10 by norm_num]
  rw [pyRound_eq_round]
  · rw [round_eq, show (1/10 : ℚ) + 1/2 = 3/5 by norm_num]
    rw [show ⌊(3/5 : ℚ)⌋ = 0 by rw [Int.floor_eq_iff] <;> norm_num]
    norm_num
  · rw [Int.fract, show ⌊(1/10 : ℚ)⌋ = 0 by rw [Int.floor_eq_iff] <;> norm_num]
    norm_num

theorem sqrt_200_div_200 : Real.sqrt ((200 : ℝ) / 200) = 1 := by
  rw [show (200 : ℝ) / 200 = 1 by norm_num, Real.sqrt_one]

/-! ## C6: the volume-and-mass calculator -/

/-- C6 (counterexample): the claim says the calculator returns
volume = length × width × depth exactly; at (0.001, 1, 1, "terre") the
source returns round(0.001, 2) = 0.0, not 0.001. -/
theorem calculer_volume_exact_formula_cex :
    (calculer_volume (1/1000) 1 1 (JVal.str ("terre"))).get "volume_m3"
      = some (JVal.num 0)
    ∧ (0 : ℚ) ≠ 1/1000 * 1 * 1 := by
  constructor
  · have h : round2 (((1000 : ℚ))⁻¹) = 0 := by
      rw [show ((1000 : ℚ))⁻¹ = 1/1000 by norm_num]
      exact round2_milli
    simp [calculer_volume, JVal.get, getField, h]
  · norm_num

/-- C6 (amended): for every length, width, depth and material tag, the
calculator returns volume = round2(l × w × d) and
mass = round2(l × w × d × density) — the source rounds both returned
values to two decimal places — where density is the fixed table value for
a recognized material and 1.8 otherwise; the claimed instances
(10, 4, 2, "beton") → volume 80, mass 192 and (10, 4, 2, "unknown") →
mass 144 are exact, so they hold unchanged. -/
theorem calculer_volume_rounded_spec (l w p : ℚ) (m : String) :
    (calculer_volume l w p (JVal.str m)).get "volume_m3"
      = some (JVal.num (round2 (l * w * p)))
    ∧ (calculer_volume l w p (JVal.str m)).get "masse_t"
      = some (JVal.num (round2 (l * w * p * densiteGet (JVal.str m))))
    ∧ (calculer_volume 10 4 2 (JVal.str ("beton"))).get "volume_m3"
      = some (JVal.num 80)
    ∧ (calculer_volume 10 4 2 (JVal.str ("beton"))).get "masse_t"
      = some (JVal.num 192)
    ∧ (calculer_volume 10 4 2 (JVal.str ("unknown"))).get "masse_t"
      = some (JVal.num 144) := by
  refine ⟨?_, ?_, ?_, ?_, ?_⟩
  · simp [calculer_volume, JVal.get, getField]
  · simp [calculer_volume, JVal.get, getField]
  · simp [calculer_volume, JVal.get, getField]
    rw [show (10 : ℚ) * 4 * 2 = 80 by norm_num, round2_80]
  · simp [calculer_volume, JVal.get, getField, densiteGet, alookup,
      _DENSITES]
    rw [show (10 : ℚ) * 4 * 2 * (24/10) = 192 by norm_num, round2_192]
  · simp [calculer_volume, JVal.get, getField, densiteGet, alookup,
      _DENSITES]
    rw [show (10 : ℚ) * 4 * 2 * (18/10) = 144 by norm_num, round2_144]

/-! ## C7 and C8: the network-cost estimator -/

/-- C7 (counterexample): the claim says the estimator returns exactly
min_unit × length × sqrt(diameter/200); at ("eau_potable", 0.013, 200) the
source returns round(150 × 0.013 × 1) = round(1.95) = 2, not 1.95. -/
theorem estimer_cout_exact_formula_cex :
    cout_min (JVal.str ("eau_potable")) (13/1000) 200 = 2
    ∧ ((2 : ℤ) : ℝ) ≠ (150 : ℝ) * (13/1000) * Real.sqrt ((200 : ℝ) / 200) := by
  constructor
  · rw [cout_min, show fourchette (JVal.str ("eau_potable")) = (150, 350) by rfl]
    rw [coeff_diam]
    rw [show (((200 : ℚ) : ℝ)) = (200 : ℝ) by norm_num, sqrt_200_div_200]
    rw [show ((150 : ℚ) : ℝ) * (((13/1000 : ℚ)) : ℝ) * 1 = 39/20 by
      push_cast
      norm_num]
    rw [pyRound_eq_round]
    · rw [round_eq, show (39 : ℝ)/20 + 1/2 = 49/20 by norm_num]
      rw [Int.floor_eq_iff] <;> norm_num
    · rw [Int.fract,
        show ⌊(39 : ℝ)/20⌋ = 1 by rw [Int.floor_eq_iff] <;> norm_num]
      norm_num
  · rw [sqrt_200_div_200]
    norm_num

/-- C7 (amended): for every recognized network kind, nonnegative diameter
(default 200) and length, the estimator returns the cost range
[round(min_unit × l × sqrt(d/200)), round(max_unit × l × sqrt(d/200))] —
the source rounds each bound to the nearest integer — using the fixed
per-kind unit-cost bounds; the claimed instance ("eau_potable", 100, 200)
→ [15000, 35000] is exact, so it holds unchanged. -/
theorem estimer_cout_rounded_spec (t : String) (uc : ℚ × ℚ) (l d : ℚ)
    (h1 : alookup t _COUTS_RESEAU = some uc) (h2 : 0 ≤ d) :
    cout_min (JVal.str t) l d
      = pyRound ((uc.1 : ℝ) * (l : ℝ) * Real.sqrt ((d : ℝ) / 200))
    ∧ cout_max (JVal.str t) l d
      = pyRound ((uc.2 : ℝ) * (l : ℝ) * Real.sqrt ((d : ℝ) / 200))
    ∧ (estimer_cout_reseau (JVal.str t) l d).get "cout_min_ht"
      = some (JVal.num (cout_min (JVal.str t) l d))
    ∧ (estimer_cout_reseau (JVal.str t) l d).get "cout_max_ht"
      = some (JVal.num (cout_max (JVal.str t) l d))
    ∧ bindEstimer [("type_reseau", JVal.str t), ("longueur_m", JVal.num l)]
      = Except.ok (estimer_cout_reseau (JVal.str t) l 200)
    ∧ cout_min (JVal.str ("eau_potable")) 100 200 = 15000
    ∧ cout_max (JVal.str ("eau_potable")) 100 200 = 35000 := by
  refine ⟨?_, ?_, ?_, ?_, ?_, ?_, ?_⟩
  · rw [cout_min, fourchette, h1, coeff_diam, Option.getD_some]
  · rw [cout_max, fourchette, h1, coeff_diam, Option.getD_some]
  · simp [estimer_cout_reseau, JVal.get, getField]
  · simp [estimer_cout_reseau, JVal.get, getField]
  · simp [bindEstimer, keysOK, inputKeys, alookup]
  · rw [cout_min, show fourchette (JVal.str ("eau_potable")) = (150, 350) by rfl]
    rw [coeff_diam, show (((200 : ℚ) : ℝ)) = (200 : ℝ) by norm_num,
      sqrt_200_div_200]
    rw [show ((150 : ℚ) : ℝ) * (((100 : ℚ)) : ℝ) * 1 = ((15000 : ℤ) : ℝ) by
      push_cast
      norm_num]
    exact pyRound_intCast 15000
  · rw [cout_max, show fourchette (JVal.str ("eau_potable")) = (150, 350) by rfl]
    rw [coeff_diam, show (((200 : ℚ) : ℝ)) = (200 : ℝ) by norm_num,
      sqrt_200_div_200]
    rw [show ((350 : ℚ) : ℝ) * (((100 : ℚ)) : ℝ) * 1 = ((35000 : ℤ) : ℝ) by
      push_cast
      norm_num]
    exact pyRound_intCast 35000

/-- C7 (witness for the amended theorem): at kind "eau_potable" with unit
costs (150, 350), length 100 and diameter 200 the hypotheses hold. -/
theorem estimer_cout_rounded_spec_witness :
    alookup "eau_potable" _COUTS_RESEAU = some (150, 350)
    ∧ (0 : ℚ) ≤ 200
    ∧ (cout_min (JVal.str ("eau_potable")) 100 200
        = pyRound (((150, 350).1 : ℝ) * ((100 : ℚ) : ℝ) *
            Real.sqrt (((200 : ℚ) : ℝ) / 200))
      ∧ cout_max (JVal.str ("eau_potable")) 100 200
        = pyRound (((150, 350).2 : ℝ) * ((100 : ℚ) : ℝ) *
            Real.sqrt (((200 : ℚ) : ℝ) / 200))
      ∧ (estimer_cout_reseau (JVal.str ("eau_potable")) 100 200).get "cout_min_ht"
        = some (JVal.num (cout_min (JVal.str ("eau_potable")) 100 200))
      ∧ (estimer_cout_reseau (JVal.str ("eau_potable")) 100 200).get "cout_max_ht"
        = some (JVal.num (cout_max (JVal.str ("eau_potable")) 100 200))
      ∧ bindEstimer [("type_reseau", JVal.str ("eau_potable")),
            ("longueur_m", JVal.num 100)]
        = Except.ok (estimer_cout_reseau (JVal.str ("eau_potable")) 100 200)
      ∧ cout_min (JVal.str ("eau_potable")) 100 200 = 15000
      ∧ cout_max (JVal.str ("eau_potable")) 100 200 = 35000) :=
  ⟨rfl, by norm_num,
    estimer_cout_rounded_spec "eau_potable" (150, 350) 100 200 rfl (by norm_num)⟩

/-- C8: for every network kind absent from the fixed cost table, the
estimator does not fail and uses the default unit-cost range [200, 500],
scaled by length and the diameter coefficient like any recognized kind. -/
theorem estimer_cout_default_fallback (t : String) (l d : ℚ)
    (h1 : alookup t _COUTS_RESEAU = none) (h2 : 0 ≤ d) :
    cout_min (JVal.str t) l d
      = pyRound ((200 : ℝ) * (l : ℝ) * Real.sqrt ((d : ℝ) / 200))
    ∧ cout_max (JVal.str t) l d
      = pyRound ((500 : ℝ) * (l : ℝ) * Real.sqrt ((d : ℝ) / 200))
    ∧ (estimer_cout_reseau (JVal.str t) l d).get "cout_min_ht"
      = some (JVal.num (cout_min (JVal.str t) l d))
    ∧ (estimer_cout_reseau (JVal.str t) l d).get "cout_max_ht"
      = some (JVal.num (cout_max (JVal.str t) l d)) := by
  refine ⟨?_, ?_, ?_, ?_⟩
  · rw [cout_min, fourchette, h1, coeff_diam, Option.getD_none]
    norm_num
  · rw [cout_max, fourchette, h1, coeff_diam, Option.getD_none]
    norm_num
  · simp [estimer_cout_reseau, JVal.get, getField]
  · simp [estimer_cout_reseau, JVal.get, getField]

/-- C8 (witness): the kind "gaz" is not in the table. -/
theorem estimer_cout_default_fallback_witness :
    alookup "gaz" _COUTS_RESEAU = none
    ∧ (0 : ℚ) ≤ 200
    ∧ (cout_min (JVal.str ("gaz")) 100 200
        = pyRound ((200 : ℝ) * ((100 : ℚ) : ℝ) *
            Real.sqrt (((200 : ℚ) : ℝ) / 200))
      ∧ cout_max (JVal.str ("gaz")) 100 200
        = pyRound ((500 : ℝ) * ((100 : ℚ) : ℝ) *
            Real.sqrt (((200 : ℚ) : ℝ) / 200))
      ∧ (estimer_cout_reseau (JVal.str ("gaz")) 100 200).get "cout_min_ht"
        = some (JVal.num (cout_min (JVal.str ("gaz")) 100 200))
      ∧ (estimer_cout_reseau (JVal.str ("gaz")) 100 200).get "cout_max_ht"
        = some (JVal.num (cout_max (JVal.str ("gaz")) 100 200))) :=
  ⟨rfl, by norm_num,
    estimer_cout_default_fallback "gaz" 100 200 rfl (by norm_num)⟩

/-! ## C9: the journal writer -/

theorem alookup_journalInsert_self (k v : String) (j : Journal) :
    alookup k (journalInsert k v j) = some v := by
  induction j with
  | nil => simp [journalInsert, alookup]
  | cons e rest ih =>
      by_cases h : e.1 = k
      · simp [journalInsert, h, alookup]
      · simp [journalInsert, h, alookup, ih]

theorem alookup_journalInsert_other (k k2 v : String) (j : Journal)
    (h : k2 ≠ k) : alookup k2 (journalInsert k v j) = alookup k2 j := by
  induction j with
  | nil => simp [journalInsert, alookup, Ne.symm h]
  | cons e rest ih =>
      obtain ⟨a, b⟩ := e
      by_cases he : a = k
      · subst he
        simp [journalInsert, alookup, Ne.symm h]
      · simp [journalInsert, alookup, he, ih]

theorem countKey_eq_zero (k : String) (j : Journal)
    (h : k ∉ j.map Prod.fst) : countKey k j = 0 := by
  induction j with
  | nil => rfl
  | cons e rest ih =>
      obtain ⟨a, b⟩ := e
      simp only [List.map_cons, List.mem_cons] at h
      push_neg at h
      simp [countKey, Ne.symm h.1, ih h.2]

theorem mem_keys_journalInsert (a k v : String) (j : Journal)
    (h : a ∈ (journalInsert k v j).map Prod.fst) :
    a = k ∨ a ∈ j.map Prod.fst := by
  induction j with
  | nil => simpa [journalInsert] using h
  | cons e rest ih =>
      by_cases he : e.1 = k
      · simp only [journalInsert, he, if_pos, List.map_cons, List.mem_cons] at h
        rcases h with h | h
        · exact Or.inl h
        · exact Or.inr (by simp [h])
      · simp only [journalInsert, he, if_neg, not_false_iff, List.map_cons,
          List.mem_cons] at h
        rcases h with h | h
        · exact Or.inr (by simp [h])
        · rcases ih h with h2 | h2
          · exact Or.inl h2
          · exact Or.inr (by simp [h2])

theorem journalInsert_keys_nodup (k v : String) (j : Journal)
    (hnd : (j.map Prod.fst).Nodup) :
    ((journalInsert k v j).map Prod.fst).Nodup := by
  induction j with
  | nil => simp [journalInsert]
  | cons e rest ih =>
      simp only [List.map_cons, List.nodup_cons] at hnd
      by_cases he : e.1 = k
      · simp only [journalInsert, he, if_pos, List.map_cons, List.nodup_cons]
        exact ⟨by rw [← he]; exact hnd.1, hnd.2⟩
      · simp only [journalInsert, he, if_neg, not_false_iff, List.map_cons,
          List.nodup_cons]
        refine ⟨fun hmem => ?_, ih hnd.2⟩
        rcases mem_keys_journalInsert e.1 k v rest hmem with h2 | h2
        · exact he h2
        · exact hnd.1 h2

theorem countKey_journalInsert (k v : String) (j : Journal)
    (hnd : (j.map Prod.fst).Nodup) :
    countKey k (journalInsert k v j) = 1 := by
  induction j with
  | nil => simp [journalInsert, countKey]
  | cons e rest ih =>
      simp only [List.map_cons, List.nodup_cons] at hnd
      by_cases he : e.1 = k
      · simp only [journalInsert, he, if_pos, countKey]
        rw [countKey_eq_zero k rest (by rw [← he]; exact hnd.1)]
      · simp [journalInsert, he, countKey, ih hnd.2]

/-- C9: the journal writer sets exactly the given key to the given value,
leaves every other entry unchanged, returns the full current journal in
its payload, and a second write under the same key leaves exactly one
entry for that key, holding the second value. -/
theorem memo_chantier_journal_spec (cle v1 v2 k : String) (j : Journal)
    (hnd : (j.map Prod.fst).Nodup) (hk : k ≠ cle) :
    (memo_chantier cle v1 j).2 = journalInsert cle v1 j
    ∧ alookup cle (journalInsert cle v1 j) = some v1
    ∧ alookup k (journalInsert cle v1 j) = alookup k j
    ∧ (memo_chantier cle v1 j).1.get "journal"
      = some (journalToJVal (journalInsert cle v1 j))
    ∧ countKey cle ((memo_chantier cle v2 ((memo_chantier cle v1 j).2)).2) = 1
    ∧ alookup cle ((memo_chantier cle v2 ((memo_chantier cle v1 j).2)).2)
      = some v2 := by
  refine ⟨rfl, alookup_journalInsert_self cle v1 j,
    alookup_journalInsert_other cle k v1 j hk, ?_, ?_, ?_⟩
  · simp [memo_chantier, JVal.get, getField]
  · show countKey cle (journalInsert cle v2 (journalInsert cle v1 j)) = 1
    exact countKey_journalInsert cle v2 (journalInsert cle v1 j)
      (journalInsert_keys_nodup cle v1 j hnd)
  · exact alookup_journalInsert_self cle v2 (journalInsert cle v1 j)

/-- C9 (witness): a concrete journal with one unrelated entry. -/
theorem memo_chantier_journal_spec_witness :
    ((([("x", "0")] : Journal)).map Prod.fst).Nodup
    ∧ "x" ≠ "a"
    ∧ ((memo_chantier "a" "1" [("x", "0")]).2
        = journalInsert "a" "1" [("x", "0")]
      ∧ alookup "a" (journalInsert "a" "1" [("x", "0")]) = some "1"
      ∧ alookup "x" (journalInsert "a" "1" [("x", "0")])
        = alookup "x" [("x", "0")]
      ∧ (memo_chantier "a" "1" [("x", "0")]).1.get "journal"
        = some (journalToJVal (journalInsert "a" "1" [("x", "0")]))
      ∧ countKey "a"
          ((memo_chantier "a" "2" ((memo_chantier "a" "1" [("x", "0")]).2)).2) = 1
      ∧ alookup "a"
          ((memo_chantier "a" "2" ((memo_chantier "a" "1" [("x", "0")]).2)).2)
        = some "2") :=
  ⟨by simp, by decide,
    memo_chantier_journal_spec "a" "1" "2" "x" [("x", "0")] (by simp) (by decide)⟩

/-! ## C4 and C5: the tool executor boundary -/

/-- C4: for every registered tool name, whenever the binding of the input
to the handler parameters or the handler itself fails with some message,
executer_outil catches the failure and returns the error payload carrying
the message, the tool name and the original input, leaving the journal
unchanged.  executer_outil is a total function, so no failure escapes its
boundary. -/
theorem executer_outil_absorbs_failures (tool_name : String) (tool_input : Input)
    (j : Journal) (msg : String)
    (h1 : tool_name ∈ _TOOL_REGISTRY)
    (h2 : callTool tool_name tool_input j = Except.error msg) :
    executer_outil tool_name tool_input j
      = (JVal.obj [("erreur", JVal.str msg), ("outil", JVal.str tool_name),
          ("input", JVal.obj tool_input)], j) := by
  simp [executer_outil, h1, h2]

/-- C4 (witness): calling calculer_volume with an empty input mapping
fails the binding (three required parameters missing) and is absorbed. -/
theorem executer_outil_absorbs_failures_witness :
    "calculer_volume" ∈ _TOOL_REGISTRY
    ∧ callTool "calculer_volume" [] [] = Except.error msg_calc
    ∧ executer_outil "calculer_volume" [] []
      = (JVal.obj [("erreur", JVal.str msg_calc),
          ("outil", JVal.str ("calculer_volume")),
          ("input", JVal.obj [])], []) :=
  ⟨List.Mem.head _, rfl,
    executer_outil_absorbs_failures "calculer_volume" [] [] msg_calc
      (List.Mem.head _) rfl⟩

/-- Unfolding of one loop pass in the tool_use case. -/
theorem loopStep_tool_use (svc : Svc) (s : LoopState)
    (h : (svc s.messages s.requests).stop_reason = StopReason.tool_use) :
    loopStep svc s = StepOut.next ⟨s.iteration + 1,
      s.messages ++ [Message.assistant (svc s.messages s.requests).content,
        Message.toolResults
          (processBlocks s.journal (svc s.messages s.requests).content).1],
      (processBlocks s.journal (svc s.messages s.requests).content).2,
      s.reponse_finale, s.requests + 1⟩ := by
  simp only [loopStep]
  rw [h]

/-- Unfolding of one loop pass in the end_turn case. -/
theorem loopStep_end_turn (svc : Svc) (s : LoopState)
    (h : (svc s.messages s.requests).stop_reason = StopReason.end_turn) :
    loopStep svc s = StepOut.halt ⟨s.iteration + 1, s.messages, s.journal,
      firstText (svc s.messages s.requests).content, s.requests + 1⟩ := by
  simp only [loopStep]
  rw [h]

/-- Unfolding of one loop pass in the unexpected-signal case. -/
theorem loopStep_other (svc : Svc) (s : LoopState) (r : String)
    (h : (svc s.messages s.requests).stop_reason = StopReason.other r) :
    loopStep svc s = StepOut.halt ⟨s.iteration + 1, s.messages, s.journal,
      s.reponse_finale, s.requests + 1⟩ := by
  simp only [loopStep]
  rw [h]

/-- C5: a tool name with no exact match in the registry yields the
unknown-tool error payload naming the tool, leaves the journal unchanged,
is collected as a normal ToolResult like any other, and the loop pass
carrying it continues (tool_use always transitions to the next
iteration, whatever the collected payloads are). -/
theorem executer_outil_unknown_tool (tool_name i : String) (tool_input : Input)
    (j : Journal) (rest : List Block) (svc : Svc) (s : LoopState)
    (h : tool_name ∉ _TOOL_REGISTRY)
    (hsr : (svc s.messages s.requests).stop_reason = StopReason.tool_use) :
    executer_outil tool_name tool_input j
      = (JVal.obj [("erreur", JVal.str ("Outil inconnu : " ++ tool_name))], j)
    ∧ (processBlocks j (Block.toolUse i tool_name tool_input :: rest)).1
      = ⟨i, JVal.obj [("erreur", JVal.str ("Outil inconnu : " ++ tool_name))]⟩
          :: (processBlocks j rest).1
    ∧ (processBlocks j (Block.toolUse i tool_name tool_input :: rest)).2
      = (processBlocks j rest).2
    ∧ ∃ s2, loopStep svc s = StepOut.next s2 := by
  refine ⟨by simp [executer_outil, h], ?_, ?_, ⟨_, loopStep_tool_use svc s hsr⟩⟩
  · simp [processBlocks, executer_outil, h]
  · simp [processBlocks, executer_outil, h]

/-- C5 (witness): the unregistered tool name "pelleteuse". -/
theorem executer_outil_unknown_tool_witness :
    "pelleteuse" ∉ _TOOL_REGISTRY
    ∧ ((fun (_ : List Message) (_ : ℕ) => Response.mk StopReason.tool_use [])
        (LoopState.mk 0 [] [] "" 0).messages
        (LoopState.mk 0 [] [] "" 0).requests).stop_reason = StopReason.tool_use
    ∧ (executer_outil "pelleteuse" [] []
        = (JVal.obj [("erreur", JVal.str ("Outil inconnu : " ++ "pelleteuse"))], [])
      ∧ (processBlocks [] [Block.toolUse "id1" "pelleteuse" []]).1
        = ⟨"id1", JVal.obj [("erreur",
            JVal.str ("Outil inconnu : " ++ "pelleteuse"))]⟩
            :: (processBlocks [] []).1
      ∧ (processBlocks [] [Block.toolUse "id1" "pelleteuse" []]).2
        = (processBlocks [] []).2
      ∧ ∃ s2, loopStep (fun _ _ => Response.mk StopReason.tool_use [])
          (LoopState.mk 0 [] [] "" 0) = StepOut.next s2) :=
  ⟨by decide, rfl,
    executer_outil_unknown_tool "pelleteuse" "id1" [] [] []
      (fun _ _ => Response.mk StopReason.tool_use [])
      (LoopState.mk 0 [] [] "" 0) (by decide) rfl⟩

/-! ## C3: one ToolResult per ToolInvocation, correlated, in order -/

theorem processBlocks_ids (content : List Block) : ∀ (j : Journal),
    ((processBlocks j content).1).map ToolResult.tool_use_id
      = toolUseIds content := by
  induction content with
  | nil => intro j; rfl
  | cons b rest ih =>
      intro j
      cases b with
      | text t => simp [processBlocks, toolUseIds, ih j]
      | toolUse i name input => simp [processBlocks, toolUseIds, ih]

/-- C3: in a tool_use iteration, the assistant turn and a single
tool-result turn are appended to the transcript before the loop moves on
to its next request, the tools are run sequentially in the listed order
(processBlocks threads the journal left to right through the invocation
list), and the collected ToolResults carry exactly the correlation ids of
the requested ToolInvocations, in the same order — hence exactly one
result per invocation. -/
theorem tool_use_turn_results (svc : Svc) (s : LoopState)
    (h : (svc s.messages s.requests).stop_reason = StopReason.tool_use) :
    loopStep svc s = StepOut.next ⟨s.iteration + 1,
      s.messages ++ [Message.assistant (svc s.messages s.requests).content,
        Message.toolResults
          (processBlocks s.journal (svc s.messages s.requests).content).1],
      (processBlocks s.journal (svc s.messages s.requests).content).2,
      s.reponse_finale, s.requests + 1⟩
    ∧ ((processBlocks s.journal (svc s.messages s.requests).content).1).map
        ToolResult.tool_use_id = toolUseIds (svc s.messages s.requests).content
    ∧ ((processBlocks s.journal (svc s.messages s.requests).content).1).length
      = (toolUseIds (svc s.messages s.requests).content).length := by
  refine ⟨loopStep_tool_use svc s h, processBlocks_ids _ _, ?_⟩
  rw [← processBlocks_ids ((svc s.messages s.requests).content) s.journal,
    List.length_map]

/-- C3 (witness): a response requesting two tools around a text block. -/
theorem tool_use_turn_results_witness :
    ((fun (_ : List Message) (_ : ℕ) => Response.mk StopReason.tool_use
        [Block.toolUse "id1" "memo_chantier"
          [("cle", JVal.str ("volume")), ("valeur", JVal.str ("80"))],
         Block.text "je calcule",
         Block.toolUse "id2" "pelleteuse" []])
      (LoopState.mk 0 [Message.user "mission"] [] "" 0).messages
      (LoopState.mk 0 [Message.user "mission"] [] "" 0).requests).stop_reason
      = StopReason.tool_use
    ∧ (loopStep (fun _ _ => Response.mk StopReason.tool_use
        [Block.toolUse "id1" "memo_chantier"
          [("cle", JVal.str ("volume")), ("valeur", JVal.str ("80"))],
         Block.text "je calcule",
         Block.toolUse "id2" "pelleteuse" []])
        (LoopState.mk 0 [Message.user "mission"] [] "" 0)
      = StepOut.next ⟨(LoopState.mk 0 [Message.user "mission"] [] "" 0).iteration + 1,
        (LoopState.mk 0 [Message.user "mission"] [] "" 0).messages ++
          [Message.assistant ((fun (_ : List Message) (_ : ℕ) =>
              Response.mk StopReason.tool_use
                [Block.toolUse "id1" "memo_chantier"
                  [("cle", JVal.str ("volume")), ("valeur", JVal.str ("80"))],
                 Block.text "je calcule",
                 Block.toolUse "id2" "pelleteuse" []])
              (LoopState.mk 0 [Message.user "mission"] [] "" 0).messages
              (LoopState.mk 0 [Message.user "mission"] [] "" 0).requests).content,
           Message.toolResults (processBlocks
              (LoopState.mk 0 [Message.user "mission"] [] "" 0).journal
              ((fun (_ : List Message) (_ : ℕ) =>
                Response.mk StopReason.tool_use
                  [Block.toolUse "id1" "memo_chantier"
                    [("cle", JVal.str ("volume")), ("valeur", JVal.str ("80"))],
                   Block.text "je calcule",
                   Block.toolUse "id2" "pelleteuse" []])
                (LoopState.mk 0 [Message.user "mission"] [] "" 0).messages
                (LoopState.mk 0 [Message.user "mission"] [] "" 0).requests).content).1],
        (processBlocks (LoopState.mk 0 [Message.user "mission"] [] "" 0).journal
          ((fun (_ : List Message) (_ : ℕ) => Response.mk StopReason.tool_use
              [Block.toolUse "id1" "memo_chantier"
                [("cle", JVal.str ("volume")), ("valeur", JVal.str ("80"))],
               Block.text "je calcule",
               Block.toolUse "id2" "pelleteuse" []])
            (LoopState.mk 0 [Message.user "mission"] [] "" 0).messages
            (LoopState.mk 0 [Message.user "mission"] [] "" 0).requests).content).2,
        (LoopState.mk 0 [Message.user "mission"] [] "" 0).reponse_finale,
        (LoopState.mk 0 [Message.user "mission"] [] "" 0).requests + 1⟩
      ∧ ((processBlocks (LoopState.mk 0 [Message.user "mission"] [] "" 0).journal
          ((fun (_ : List Message) (_ : ℕ) => Response.mk StopReason.tool_use
              [Block.toolUse "id1" "memo_chantier"
                [("cle", JVal.str ("volume")), ("valeur", JVal.str ("80"))],
               Block.text "je calcule",
               Block.toolUse "id2" "pelleteuse" []])
            (LoopState.mk 0 [Message.user "mission"] [] "" 0).messages
            (LoopState.mk 0 [Message.user "mission"] [] "" 0).requests).content).1).map
          ToolResult.tool_use_id
        = toolUseIds ((fun (_ : List Message) (_ : ℕ) =>
            Response.mk StopReason.tool_use
              [Block.toolUse "id1" "memo_chantier"
                [("cle", JVal.str ("volume")), ("valeur", JVal.str ("80"))],
               Block.text "je calcule",
               Block.toolUse "id2" "pelleteuse" []])
            (LoopState.mk 0 [Message.user "mission"] [] "" 0).messages
            (LoopState.mk 0 [Message.user "mission"] [] "" 0).requests).content
      ∧ ((processBlocks (LoopState.mk 0 [Message.user "mission"] [] "" 0).journal
          ((fun (_ : List Message) (_ : ℕ) => Response.mk StopReason.tool_use
              [Block.toolUse "id1" "memo_chantier"
                [("cle", JVal.str ("volume")), ("valeur", JVal.str ("80"))],
               Block.text "je calcule",
               Block.toolUse "id2" "pelleteuse" []])
            (LoopState.mk 0 [Message.user "mission"] [] "" 0).messages
            (LoopState.mk 0 [Message.user "mission"] [] "" 0).requests).content).1).length
        = (toolUseIds ((fun (_ : List Message) (_ : ℕ) =>
            Response.mk StopReason.tool_use
              [Block.toolUse "id1" "memo_chantier"
                [("cle", JVal.str ("volume")), ("valeur", JVal.str ("80"))],
               Block.text "je calcule",
               Block.toolUse "id2" "pelleteuse" []])
            (LoopState.mk 0 [Message.user "mission"] [] "" 0).messages
            (LoopState.mk 0 [Message.user "mission"] [] "" 0).requests).content).length) :=
  ⟨rfl,
    tool_use_turn_results (fun _ _ => Response.mk StopReason.tool_use
        [Block.toolUse "id1" "memo_chantier"
          [("cle", JVal.str ("volume")), ("valeur", JVal.str ("80"))],
         Block.text "je calcule",
         Block.toolUse "id2" "pelleteuse" []])
      (LoopState.mk 0 [Message.user "mission"] [] "" 0) rfl⟩

/-! ## Loop unfolding lemmas -/

theorem loopAux_zero (svc : Svc) (max_iterations : ℤ) (s : LoopState) :
    loopAux svc max_iterations 0 s = s := rfl

theorem loopAux_succ_stop (svc : Svc) (max_iterations : ℤ) (f : ℕ)
    (s : LoopState) (h : ¬ (s.iteration : ℤ) < max_iterations) :
    loopAux svc max_iterations (f + 1) s = s := by
  unfold loopAux
  rw [if_neg h]

theorem loopAux_succ_next (svc : Svc) (max_iterations : ℤ) (f : ℕ)
    (s s2 : LoopState) (hguard : (s.iteration : ℤ) < max_iterations)
    (hstep : loopStep svc s = StepOut.next s2) :
    loopAux svc max_iterations (f + 1) s = loopAux svc max_iterations f s2 := by
  conv_lhs => rw [loopAux]
  rw [if_pos hguard, hstep]

theorem loopAux_succ_halt (svc : Svc) (max_iterations : ℤ) (f : ℕ)
    (s s2 : LoopState) (hguard : (s.iteration : ℤ) < max_iterations)
    (hstep : loopStep svc s = StepOut.halt s2) :
    loopAux svc max_iterations (f + 1) s = s2 := by
  unfold loopAux
  rw [if_pos hguard, hstep]

/-- A run in which every response is tool_use consumes the whole fuel,
one request and one iteration per unit, and never touches the
deliverable. -/
theorem loopAux_all_tool_use (svc : Svc) (max_iterations : ℤ)
    (htu : ∀ m i, (svc m i).stop_reason = StopReason.tool_use) :
    ∀ (fuel : ℕ) (s : LoopState),
      (s.iteration : ℤ) + fuel ≤ max_iterations →
      (loopAux svc max_iterations fuel s).iteration = s.iteration + fuel
      ∧ (loopAux svc max_iterations fuel s).requests = s.requests + fuel
      ∧ (loopAux svc max_iterations fuel s).reponse_finale
        = s.reponse_finale := by
  intro fuel
  induction fuel with
  | zero => intro s hle; simp [loopAux_zero]
  | succ f ih =>
      intro s hle
      have hguard : (s.iteration : ℤ) < max_iterations := by
        push_cast at hle
        omega
      rw [loopAux_succ_next svc max_iterations f s _ hguard
        (loopStep_tool_use svc s (htu _ _))]
      obtain ⟨h1, h2, h3⟩ := ih ⟨s.iteration + 1,
        s.messages ++ [Message.assistant (svc s.messages s.requests).content,
          Message.toolResults
            (processBlocks s.journal (svc s.messages s.requests).content).1],
        (processBlocks s.journal (svc s.messages s.requests).content).2,
        s.reponse_finale, s.requests + 1⟩
        (by dsimp only; push_cast at hle ⊢; omega)
      refine ⟨?_, ?_, ?_⟩
      · rw [h1]; dsimp only; omega
      · rw [h2]; dsimp only; omega
      · rw [h3]

/-- A run with k tool_use responses followed by a response that is neither
end_turn nor tool_use stops after exactly k + 1 passes (the break in the
unexpected-signal branch), leaving the deliverable untouched. -/
theorem loopAux_tool_use_then_break (svc : Svc) (max_iterations : ℤ) :
    ∀ (k fuel : ℕ) (s : LoopState),
      fuel = (max_iterations - s.iteration).toNat →
      (s.iteration : ℤ) + k < max_iterations →
      (∀ m i, i < k →
        (svc m (s.requests + i)).stop_reason = StopReason.tool_use) →
      (∀ m, (svc m (s.requests + k)).stop_reason ≠ StopReason.end_turn
        ∧ (svc m (s.requests + k)).stop_reason ≠ StopReason.tool_use) →
      (loopAux svc max_iterations fuel s).iteration = s.iteration + k + 1
      ∧ (loopAux svc max_iterations fuel s).requests = s.requests + k + 1
      ∧ (loopAux svc max_iterations fuel s).reponse_finale
        = s.reponse_finale := by
  intro k
  induction k with
  | zero =>
      intro fuel s hfuel hlt htu hbrk
      obtain ⟨f, rfl⟩ : ∃ f, fuel = f + 1 := by
        cases fuel with
        | zero => exfalso; omega
        | succ f => exact ⟨f, rfl⟩
      have hguard : (s.iteration : ℤ) < max_iterations := by omega
      obtain ⟨r, hr⟩ : ∃ r, (svc s.messages s.requests).stop_reason
          = StopReason.other r := by
        have hb := hbrk s.messages
        rw [Nat.add_zero] at hb
        cases hx : (svc s.messages s.requests).stop_reason with
        | end_turn => exact absurd hx hb.1
        | tool_use => exact absurd hx hb.2
        | other r => exact ⟨r, rfl⟩
      rw [loopAux_succ_halt svc max_iterations f s _ hguard
        (loopStep_other svc s r hr)]
      refine ⟨rfl, rfl, rfl⟩
  | succ n ih =>
      intro fuel s hfuel hlt htu hbrk
      obtain ⟨f, rfl⟩ : ∃ f, fuel = f + 1 := by
        cases fuel with
        | zero => exfalso; omega
        | succ f => exact ⟨f, rfl⟩
      have hguard : (s.iteration : ℤ) < max_iterations := by
        push_cast at hlt
        omega
      have htu0 : (svc s.messages s.requests).stop_reason
          = StopReason.tool_use := by
        have h0 := htu s.messages 0 (Nat.succ_pos n)
        rw [Nat.add_zero] at h0
        exact h0
      rw [loopAux_succ_next svc max_iterations f s _ hguard
        (loopStep_tool_use svc s htu0)]
      obtain ⟨h1, h2, h3⟩ := ih f ⟨s.iteration + 1,
        s.messages ++ [Message.assistant (svc s.messages s.requests).content,
          Message.toolResults
            (processBlocks s.journal (svc s.messages s.requests).content).1],
        (processBlocks s.journal (svc s.messages s.requests).content).2,
        s.reponse_finale, s.requests + 1⟩
        (by dsimp only; omega)
        (by dsimp only; push_cast at hlt ⊢; omega)
        (by
          intro m i hi
          have h2 := htu m (i + 1) (by omega)
          dsimp only
          rw [(by omega : s.requests + 1 + i = s.requests + (i + 1))]
          exact h2)
        (by
          intro m
          have h2 := hbrk m
          dsimp only
          rw [(by omega : s.requests + 1 + n = s.requests + (n + 1))]
          exact h2)
      refine ⟨?_, ?_, ?_⟩
      · rw [h1]; dsimp only; omega
      · rw [h2]; dsimp only; omega
      · rw [h3]

/-! ## C1, C2 and C10: termination behavior of the loop -/

/-- C1: with a budget of N >= 1 iterations and a completion service that
never answers end_turn and never an unexpected signal (every response is
tool_use), the loop sends exactly N requests, stops after exactly N
iterations (never N + 1), and run_agent returns the forced-stop
sentinel. -/
theorem run_agent_budget_exhaustion (svc : Svc) (task : String)
    (max_iterations : ℤ) (j0 : Journal)
    (hN : 1 ≤ max_iterations)
    (htu : ∀ m i, (svc m i).stop_reason = StopReason.tool_use) :
    ((run_agent_state svc task max_iterations j0).requests : ℤ)
      = max_iterations
    ∧ ((run_agent_state svc task max_iterations j0).iteration : ℤ)
      = max_iterations
    ∧ run_agent svc task max_iterations j0 = sentinel_arret := by
  obtain ⟨h1, h2, h3⟩ := loopAux_all_tool_use svc max_iterations htu
    max_iterations.toNat ⟨0, [Message.user task], j0, "", 0⟩
    (by dsimp only; omega)
  dsimp only at h1 h2 h3
  rw [run_agent, run_agent_state]
  rw [if_pos ⟨by rw [h1]; push_cast; omega, h3⟩]
  refine ⟨?_, ?_, rfl⟩
  · dsimp only; rw [h2]; push_cast; omega
  · dsimp only; rw [h1]; push_cast; omega

/-- C1 (witness): budget 2 with a service that always requests tools. -/
theorem run_agent_budget_exhaustion_witness :
    (1 : ℤ) ≤ 2
    ∧ (∀ (m : List Message) (i : ℕ),
        ((fun (_ : List Message) (_ : ℕ) => Response.mk StopReason.tool_use [])
          m i).stop_reason = StopReason.tool_use)
    ∧ (((run_agent_state (fun _ _ => Response.mk StopReason.tool_use [])
          "mission" 2 []).requests : ℤ) = 2
      ∧ ((run_agent_state (fun _ _ => Response.mk StopReason.tool_use [])
          "mission" 2 []).iteration : ℤ) = 2
      ∧ run_agent (fun _ _ => Response.mk StopReason.tool_use [])
          "mission" 2 [] = sentinel_arret) :=
  ⟨by norm_num, fun m i => rfl,
    run_agent_budget_exhaustion (fun _ _ => Response.mk StopReason.tool_use [])
      "mission" 2 [] (by norm_num) (fun m i => rfl)⟩

/-- C2 (counterexample): the claim says an unexpected termination signal
always yields an empty deliverable, including on the final permitted
iteration; with budget 1 and an unexpected signal on the first (= final)
iteration, the safety net of run_agent overwrites the empty deliverable
with the forced-stop sentinel. -/
theorem run_agent_unexpected_final_cex :
    run_agent (fun _ _ => Response.mk (StopReason.other ("max_tokens")) [])
      "mission" 1 [] = sentinel_arret
    ∧ sentinel_arret ≠ "" := by
  constructor
  · rw [run_agent, run_agent_state]
    rw [show (1 : ℤ).toNat = 0 + 1 from rfl]
    rw [loopAux_succ_halt _ 1 0 _ _ (by norm_num)
      (loopStep_other _ _ "max_tokens" rfl)]
    rw [if_pos ⟨by norm_num, rfl⟩]
  · decide

/-- C2 (amended): an unexpected termination signal (neither end_turn nor
tool_use) at iteration k + 1 stops the loop at that iteration with no
further request; the deliverable is empty when this happens strictly
before the final permitted iteration, but on the final permitted
iteration the safety net replaces it with the forced-stop sentinel. -/
theorem run_agent_unexpected_stop (svc : Svc) (task : String)
    (max_iterations : ℤ) (j0 : Journal) (k : ℕ)
    (hk : (k : ℤ) < max_iterations)
    (htu : ∀ m i, i < k → (svc m i).stop_reason = StopReason.tool_use)
    (hbrk : ∀ m, (svc m k).stop_reason ≠ StopReason.end_turn
      ∧ (svc m k).stop_reason ≠ StopReason.tool_use) :
    (run_agent_state svc task max_iterations j0).requests = k + 1
    ∧ (run_agent_state svc task max_iterations j0).iteration = k + 1
    ∧ run_agent svc task max_iterations j0
      = (if (k + 1 : ℤ) < max_iterations then "" else sentinel_arret) := by
  obtain ⟨h1, h2, h3⟩ := loopAux_tool_use_then_break svc max_iterations k
    max_iterations.toNat ⟨0, [Message.user task], j0, "", 0⟩
    (by dsimp only; omega)
    (by dsimp only; omega)
    (by intro m i hi; rw [Nat.zero_add]; exact htu m i hi)
    (by intro m; rw [Nat.zero_add]; exact hbrk m)
  dsimp only at h1 h2 h3
  rw [Nat.zero_add] at h1 h2
  rw [run_agent, run_agent_state]
  by_cases hfin : (k + 1 : ℤ) < max_iterations
  · rw [if_neg]
    · rw [if_pos hfin]
      exact ⟨h2, h1, h3⟩
    · intro hcond
      rw [h1] at hcond
      have := hcond.1
      push_cast at this
      omega
  · rw [if_pos ⟨by rw [h1]; push_cast; omega, h3⟩]
    rw [if_neg hfin]
    exact ⟨h2, h1, rfl⟩

/-- C2 (witness for the amended theorem): budget 3, unexpected signal on
the very first iteration, which is not the final one: the deliverable is
empty. -/
theorem run_agent_unexpected_stop_witness :
    ((0 : ℕ) : ℤ) < 3
    ∧ (∀ (m : List Message) (i : ℕ), i < 0 →
        ((fun (_ : List Message) (_ : ℕ) =>
          Response.mk (StopReason.other ("max_tokens")) []) m i).stop_reason
          = StopReason.tool_use)
    ∧ (∀ (m : List Message),
        ((fun (_ : List Message) (_ : ℕ) =>
          Response.mk (StopReason.other ("max_tokens")) []) m 0).stop_reason
          ≠ StopReason.end_turn
        ∧ ((fun (_ : List Message) (_ : ℕ) =>
          Response.mk (StopReason.other ("max_tokens")) []) m 0).stop_reason
          ≠ StopReason.tool_use)
    ∧ ((run_agent_state (fun _ _ =>
          Response.mk (StopReason.other ("max_tokens")) [])
          "mission" 3 []).requests = 0 + 1
      ∧ (run_agent_state (fun _ _ =>
          Response.mk (StopReason.other ("max_tokens")) [])
          "mission" 3 []).iteration = 0 + 1
      ∧ run_agent (fun _ _ =>
          Response.mk (StopReason.other ("max_tokens")) []) "mission" 3 []
        = (if ((0 : ℕ) + 1 : ℤ) < 3 then "" else sentinel_arret)) :=
  ⟨by norm_num,
   fun m i hi => absurd hi (Nat.not_lt_zero i),
   fun m => ⟨fun h => StopReason.noConfusion h, fun h => StopReason.noConfusion h⟩,
   run_agent_unexpected_stop
     (fun _ _ => Response.mk (StopReason.other ("max_tokens")) [])
     "mission" 3 [] 0 (by norm_num)
     (fun m i hi => absurd hi (Nat.not_lt_zero i))
     (fun m => ⟨fun h => StopReason.noConfusion h,
       fun h => StopReason.noConfusion h⟩)⟩

/-- C10: with a budget N <= 0 the while guard fails immediately: the loop
sends zero requests, performs zero iterations, and the safety net makes
run_agent return the forced-stop sentinel (not an empty deliverable, and
no failure). -/
theorem run_agent_nonpositive_budget (svc : Svc) (task : String)
    (max_iterations : ℤ) (j0 : Journal) (hle : max_iterations ≤ 0) :
    (run_agent_state svc task max_iterations j0).requests = 0
    ∧ (run_agent_state svc task max_iterations j0).iteration = 0
    ∧ run_agent svc task max_iterations j0 = sentinel_arret := by
  have h0 : max_iterations.toNat = 0 := by omega
  rw [run_agent, run_agent_state]
  rw [h0, loopAux_zero]
  rw [if_pos ⟨by dsimp only; push_cast; omega, rfl⟩]
  exact ⟨rfl, rfl, rfl⟩

/-- C10 (witness): budget 0. -/
theorem run_agent_nonpositive_budget_witness :
    (0 : ℤ) ≤ 0
    ∧ ((run_agent_state (fun _ _ => Response.mk StopReason.end_turn [])
          "mission" 0 []).requests = 0
      ∧ (run_agent_state (fun _ _ => Response.mk StopReason.end_turn [])
          "mission" 0 []).iteration = 0
      ∧ run_agent (fun _ _ => Response.mk StopReason.end_turn [])
          "mission" 0 [] = sentinel_arret) :=
  ⟨le_refl 0,
    run_agent_nonpositive_budget (fun _ _ => Response.mk StopReason.end_turn [])
      "mission" 0 [] (le_refl 0)⟩

end AgentTP
